import Mathlib

/-!
Shallow embedding of the USBGuard status-bar module
(`py3status/modules/usbguard.py`): the pending-device registry, the two
bus-signal handlers of `UsbguardListener`, and the click dispatcher of
`Py3status`.  Python dictionaries are modelled as association lists with
Python's assignment semantics (update in place preserving position,
append for a new key); Python string containment (`'x' in s`) is
modelled as substring containment on the character lists; truthiness of
a Python value is modelled explicitly where the code relies on it
(a nonzero integer, a non-empty string, a non-empty dict).
-/

set_option autoImplicit false

/-- Python substring containment on character lists: some suffix of the
haystack starts with the needle. -/
def subLoop (needle : List Char) : List Char → Bool
  | [] => needle.isEmpty
  | c :: cs => needle.isPrefixOf (c :: cs) || subLoop needle cs

/-- Python `needle in hay` for strings. -/
def containsSub (hay needle : String) : Bool :=
  subLoop needle.data hay.data

section Dict

variable {α : Type} {β : Type} [DecidableEq α]

/-- Python `d[k]` as an `Option` (first entry with the key). -/
def dictGet : List (α × β) → α → Option β
  | [], _ => Option.none
  | (k0, v0) :: rest, k => if k0 = k then some v0 else dictGet rest k

/-- Python `d[k] = v`: replace in place if the key exists, else append. -/
def dictSet : List (α × β) → α → β → List (α × β)
  | [], k, v => [(k, v)]
  | (k0, v0) :: rest, k, v =>
      if k0 = k then (k, v) :: rest else (k0, v0) :: dictSet rest k v

/-- Python `del d[k]` (the callers always guard on membership first). -/
def dictDel : List (α × β) → α → List (α × β)
  | [], _ => []
  | (k0, v0) :: rest, k =>
      if k0 = k then dictDel rest k else (k0, v0) :: dictDel rest k

/-- Python `k in d`. -/
def dictMem (d : List (α × β)) (k : α) : Bool :=
  (dictGet d k).isSome

theorem dictGet_dictSet (d : List (α × β)) (k : α) (v : β) (j : α) :
    dictGet (dictSet d k v) j = if j = k then some v else dictGet d j := by
  induction d with
  | nil =>
      by_cases h : j = k
      · subst h; simp [dictSet, dictGet]
      · simp [dictSet, dictGet, h, Ne.symm h]
  | cons hd tl ih =>
      obtain ⟨k0, v0⟩ := hd
      by_cases hk : k0 = k <;> by_cases hj : k0 = j <;>
        (simp_all [dictSet, dictGet]; try (split <;> simp_all))

theorem dictGet_dictDel (d : List (α × β)) (k : α) (j : α) :
    dictGet (dictDel d k) j = if j = k then Option.none else dictGet d j := by
  induction d with
  | nil => simp [dictDel, dictGet]
  | cons hd tl ih =>
      obtain ⟨k0, v0⟩ := hd
      by_cases hk : k0 = k <;> by_cases hj : k0 = j <;>
        simp_all [dictDel, dictGet]

theorem dictMem_dictSet (d : List (α × β)) (k : α) (v : β) (j : α) :
    dictMem (dictSet d k v) j = (if j = k then true else dictMem d j) := by
  simp only [dictMem, dictGet_dictSet]
  split <;> simp

theorem dictMem_dictDel (d : List (α × β)) (k : α) (j : α) :
    dictMem (dictDel d k) j = (if j = k then false else dictMem d j) := by
  simp only [dictMem, dictGet_dictDel]
  split <;> simp

end Dict

/-- A value stored in a device dictionary: the integer ids, an attribute
string, or Python `None`. -/
inductive Val
  | nat (n : Nat)
  | str (s : String)
  | null
deriving DecidableEq, Repr

/-- A device entry: the Python dict built by the presence handler
(string keys, heterogeneous values). -/
abbrev Device := List (String × Val)

/-- `Py3status.data`: the registry of pending devices, keyed by
`usbguard_id`, in Python-dict insertion order. -/
abbrev Registry := List (Nat × Device)

/-- `new_key.replace('_', '-')`: the internal underscore name translated
to the external dash-separated attribute name. -/
def dashify (s : String) : String :=
  String.mk (s.data.map fun c => if c = '_' then '-' else c)

/-- One iteration of the placeholder loop in
`_on_devices_presence_changed` (lines 84-90): when the dash-translated
key is present in the signal's attribute map, store its value under the
underscore key — the value itself when truthy (non-empty), else `None`;
when the key is absent from the map, store nothing. -/
def buildStep (attrs : List (String × String)) (dev : Device) (new_key : String) : Device :=
  match dictGet attrs (dashify new_key) with
  | some v => dictSet dev new_key (if v = "" then Val.null else Val.str v)
  | Option.none => dev

/-- The device dict built on insertion (lines 83-90): `usbguard_id` and
`index` always, then the placeholder loop over the attribute map. -/
def buildDevice (ph : List String) (i : Nat) (attrs : List (String × String)) : Device :=
  ph.foldl (buildStep attrs) [("usbguard_id", Val.nat i), ("index", Val.nat i)]

/-- Registry effect of `UsbguardListener._on_devices_presence_changed`
(lines 75-97): on state 1 with a `'block id'` permission store a fresh
device dict; on any other state delete the entry if present. -/
def onPresence (ph : List String) (data : Registry) (i stc : Nat)
    (perms : String) (attrs : List (String × String)) : Registry :=
  if stc = 1 then
    if containsSub perms "block id" then dictSet data i (buildDevice ph i attrs)
    else data
  else
    if dictMem data i then dictDel data i else data

/-- The `for action in ['allow id', 'reject id']` loop of
`_on_devices_policy_changed` (lines 104-112), with its `break` inside
the membership test. -/
def policyLoop (data : Registry) (i : Nat) (perms : String) : List String → Registry
  | [] => data
  | a :: rest =>
      if containsSub perms a then
        if dictMem data i then dictDel data i
        else policyLoop data i perms rest
      else policyLoop data i perms rest

/-- Registry effect of `UsbguardListener._on_devices_policy_changed`
(lines 101-113). -/
def onPolicy (data : Registry) (i : Nat) (perms : String) : Registry :=
  policyLoop data i perms ["allow id", "reject id"]

/-- A decoded bus event: a `DevicePresenceChanged` payload
`(id, state, old_state, permissions, attributes)` or a
`DevicePolicyChanged` payload (of which the handler reads the id and the
permission string). -/
inductive Ev
  | presence (i stc old : Nat) (perms : String) (attrs : List (String × String))
  | policy (i : Nat) (perms : String)
deriving DecidableEq, Repr

/-- Apply one event the way the listener's handlers do. -/
def applyEv (ph : List String) (data : Registry) : Ev → Registry
  | Ev.presence i stc _ perms attrs => onPresence ph data i stc perms attrs
  | Ev.policy i perms => onPolicy data i perms

/-- Replay a sequence of events through the handlers. -/
def replay (ph : List String) (data : Registry) (es : List Ev) : Registry :=
  es.foldl (applyEv ph) data

/-- The three actions of `Py3status._set_policy`. -/
inductive Act
  | allow
  | block
  | reject
deriving DecidableEq, Repr

/-- The literal string passed for each action by `on_click`. -/
def actName : Act → String
  | Act.allow => "allow"
  | Act.block => "block"
  | Act.reject => "reject"

/-- `targets = {'allow': 0, 'block': 1, 'reject': 2}` (line 182). -/
def targetCode : Act → Nat
  | Act.allow => 0
  | Act.block => 1
  | Act.reject => 2

/-- The `index` field of a click event: a device id or the separator
sentinel `'sep'`. -/
inductive Idx
  | id (n : Nat)
  | sep
deriving DecidableEq, Repr

/-- Python truthiness of the index (`if ... and index ...`, line 180):
the integer 0 is falsy, the string `'sep'` is truthy. -/
def truthyIdx : Idx → Bool
  | Idx.id n => n ≠ 0
  | Idx.sep => true

/-- Errors the Python code can raise inside `_set_policy`. -/
inductive PyErr
  | keyError (k : Nat)
  | daemonError
deriving DecidableEq, Repr

/-- The configuration fields `_set_policy` and `on_click` read. -/
structure Config where
  button_allow : Option Nat
  button_block : Option Nat
  button_reject : Option Nat
  format_notification : String
deriving DecidableEq, Repr

/-- The class defaults of `Py3status` (lines 136-142). -/
def defaultCfg : Config :=
  ⟨some 1, some 3, Option.none, "{name} is {action}"⟩

/-- One rendered device segment: the `index` tag attached by
`composite_update` plus the device dict it was formatted from. -/
abbrev Seg := Option Val × Device

/-- `Py3status._manipulate_devices` (lines 221-237): one tagged segment
per registry entry, in registry order (the formatting itself is the
out-of-scope rendering engine). -/
def manipulateDevices (data : Registry) : List Seg :=
  data.map fun p => (dictGet p.2 "index", p.2)

/-- The mutable state of `Py3status` that the dispatcher touches:
`self.data`, `self.new_data['format_device']` (absent until first set),
and `self.is_permanant`. -/
structure St where
  data : Registry
  new_data : Option (List Seg)
  is_permanant : Bool
deriving DecidableEq, Repr

/-- The state set up by `post_config_hook` (lines 159-161). -/
def initSt : St :=
  ⟨[], Option.none, false⟩

/-- `Py3status._toggle_permanant` (lines 154-155). -/
def togglePermanant (st : St) : St :=
  ⟨st.data, st.new_data, !st.is_permanant⟩

/-- Result of the notification block of `_set_policy` (lines 185-196):
the possibly mutated registry, the notification payloads sent, and the
`KeyError` raised when the id is absent.  Note the aliasing in the
source: `format_notification = self.data[index]` followed by
`format_notification['action'] = action` mutates the registry's own
device dict in place. -/
structure NotifOut where
  data : Registry
  notifs : List Device
  err : Option PyErr
deriving DecidableEq, Repr

/-- The notification block of `_set_policy` (lines 185-196). -/
def notifyStep (cfg : Config) (data : Registry) (act : Act) (n : Nat) : NotifOut :=
  if cfg.format_notification = "" then ⟨data, [], Option.none⟩
  else
    match dictGet data n with
    | Option.none => ⟨data, [], some (PyErr.keyError n)⟩
    | some dev =>
        let dev2 := dictSet dev "action" (Val.str (actName act))
        ⟨dictSet data n dev2, [dev2], Option.none⟩

/-- Outcome of one dispatch: the state afterwards, the notifications
sent, the `applyDevicePolicy` calls attempted (id, target code,
permanent flag), and the exception propagated to the caller, if any
(mutations made before the raise persist, as in Python). -/
structure Dispatched where
  st : St
  notifs : List Device
  calls : List (Nat × Nat × Bool)
  err : Option PyErr
deriving DecidableEq, Repr

/-- `Py3status._set_policy` (lines 179-206).  `applyOk` models whether
the daemon's `applyDevicePolicy` call succeeds; the code wraps it in no
`try`, so a failure propagates. -/
def setPolicy (cfg : Config) (st : St) (action : Option Act) (index : Idx)
    (applyOk : Bool) : Dispatched :=
  match action, index with
  | Option.none, _ => ⟨st, [], [], Option.none⟩
  | some _, Idx.sep => ⟨st, [], [], Option.none⟩
  | some act, Idx.id n =>
    if n = 0 then ⟨st, [], [], Option.none⟩
    else
      match notifyStep cfg st.data act n with
      | ⟨data1, notifs, some e⟩ =>
          ⟨⟨data1, st.new_data, st.is_permanant⟩, notifs, [], some e⟩
      | ⟨data1, notifs, Option.none⟩ =>
          match act with
          | Act.block =>
              match dictGet data1 n with
              | Option.none =>
                  ⟨⟨data1, st.new_data, st.is_permanant⟩, notifs, [],
                    some (PyErr.keyError n)⟩
              | some dev =>
                  if dev = [] then
                    ⟨⟨data1, st.new_data, st.is_permanant⟩, notifs, [], Option.none⟩
                  else
                    ⟨⟨dictDel data1 n, some (manipulateDevices (dictDel data1 n)),
                        st.is_permanant⟩, notifs, [], Option.none⟩
          | a =>
              ⟨⟨data1, st.new_data, st.is_permanant⟩, notifs,
                [(n, targetCode a, st.is_permanant)],
                if applyOk then Option.none else some PyErr.daemonError⟩

/-- `Py3status.on_click` (lines 211-219): the button is matched against
`button_allow`, then `button_reject`, then `button_block`. -/
def onClick (cfg : Config) (st : St) (button : Nat) (index : Idx)
    (applyOk : Bool) : Dispatched :=
  if some button = cfg.button_allow then setPolicy cfg st (some Act.allow) index applyOk
  else if some button = cfg.button_reject then setPolicy cfg st (some Act.reject) index applyOk
  else if some button = cfg.button_block then setPolicy cfg st (some Act.block) index applyOk
  else ⟨st, [], [], Option.none⟩

/-- Fold a sequence of click events (button, index, daemon outcome)
through `on_click`, keeping only the state. -/
def runClicks (cfg : Config) : St → List (Nat × Idx × Bool) → St
  | st, [] => st
  | st, (b, i, ok) :: rest => runClicks cfg (onClick cfg st b i ok).st rest

/-- The body of the render output: the composite built from `new_data`
when that dict is non-empty, else `full_text` built with an empty
`format_device` segment (lines 245-250). -/
inductive RespBody
  | composite (segs : List Seg)
  | fullText (deviceSeg : String)
deriving DecidableEq, Repr

/-- The response of `Py3status.usbguard`: `urgent` is set
unconditionally (line 243). -/
structure Resp where
  urgent : Bool
  body : RespBody
deriving DecidableEq, Repr

/-- The device segments carried by a response (empty for the
`full_text` branch). -/
def Resp.deviceSegs : Resp → List Seg
  | ⟨_, RespBody.composite c⟩ => c
  | ⟨_, RespBody.fullText _⟩ => []

/-- The non-error part of `Py3status.usbguard` (lines 243-252). -/
def render (st : St) : Resp :=
  match st.new_data with
  | some c => ⟨true, RespBody.composite c⟩
  | Option.none => ⟨true, RespBody.fullText ""⟩

/-- `Py3status.usbguard` (lines 239-252): a stored connection error is
raised to the framework; otherwise the response is produced. -/
def usbguard (error : Option String) (st : St) : Except String Resp :=
  match error with
  | some e => Except.error e
  | Option.none => Except.ok (render st)

/-- The claim's event alphabet: a presence payload is a decoded
insertion (state 1 with a `'block id'` permission) or a decoded removal
(state 3); policy payloads are unconstrained. -/
def wfEv : Ev → Bool
  | Ev.presence _ stc _ perms _ =>
      (stc == 1 && containsSub perms "block id") || stc == 3
  | Ev.policy _ _ => true

/-- Formalized from the claim's wording: whether an event concerns the
id `i` — an insertion or removal for `i`, or a policy change granting
allow or reject for `i`. -/
def specTouches (i : Nat) : Ev → Bool
  | Ev.presence k stc _ perms _ =>
      k == i && ((stc == 1 && containsSub perms "block id") || stc == 3)
  | Ev.policy k perms =>
      k == i && (containsSub perms "allow id" || containsSub perms "reject id")

/-- Formalized from the claim's wording: whether an event is an
insertion for the id `i`. -/
def specInserts (i : Nat) : Ev → Bool
  | Ev.presence k stc _ perms _ =>
      k == i && stc == 1 && containsSub perms "block id"
  | Ev.policy _ _ => false

/-- Formalized from the claim's wording: scanning the sequence, `i` is a
member afterwards exactly when the last event concerning `i` is an
insertion (`b` is the membership before the sequence). -/
def specMemberFrom (i : Nat) : List Ev → Bool → Bool
  | [], b => b
  | e :: rest, b =>
      specMemberFrom i rest (if specTouches i e then specInserts i e else b)

theorem dictMem_applyEv (ph : List String) (data : Registry) (e : Ev) (i : Nat)
    (hwf : wfEv e = true) :
    dictMem (applyEv ph data e) i =
      (if specTouches i e then specInserts i e else dictMem data i) := by
  cases e with
  | presence k stc old perms attrs =>
      simp only [wfEv, Bool.or_eq_true, Bool.and_eq_true, beq_iff_eq] at hwf
      by_cases hk : k = i
      · subst hk
        rcases hwf with ⟨h1, hb⟩ | h3
        · subst h1
          simp [applyEv, onPresence, hb, specTouches, specInserts, dictMem_dictSet]
        · subst h3
          by_cases hm : dictMem data k = true
          · simp [applyEv, onPresence, hm, specTouches, specInserts, dictMem_dictDel]
          · simp only [Bool.not_eq_true] at hm
            simp [applyEv, onPresence, hm, specTouches, specInserts]
      · have hik : ¬ i = k := fun h => hk h.symm
        have hbik : (k == i) = false := by simp [hk]
        rcases hwf with ⟨h1, hb⟩ | h3
        · subst h1
          simp [applyEv, onPresence, hb, specTouches, specInserts,
            dictMem_dictSet, hik, hbik]
        · subst h3
          by_cases hm : dictMem data k = true
          · simp [applyEv, onPresence, hm, specTouches, specInserts,
              dictMem_dictDel, hik, hbik]
          · simp only [Bool.not_eq_true] at hm
            simp [applyEv, onPresence, hm, specTouches, specInserts, hbik]
  | policy k perms =>
      simp only [applyEv, onPolicy, policyLoop, specTouches, specInserts]
      by_cases hk : k = i
      · subst hk
        by_cases hm : dictMem data k = true
        · by_cases ca : containsSub perms "allow id" = true <;>
            by_cases cr : containsSub perms "reject id" = true <;>
              simp [ca, cr, hm, dictMem_dictDel]
        · simp only [Bool.not_eq_true] at hm
          by_cases ca : containsSub perms "allow id" = true <;>
            by_cases cr : containsSub perms "reject id" = true <;>
              simp [ca, cr, hm]
      · have hik : ¬ i = k := fun h => hk h.symm
        have hbik : (k == i) = false := by simp [hk]
        by_cases hm : dictMem data k = true
        · by_cases ca : containsSub perms "allow id" = true <;>
            by_cases cr : containsSub perms "reject id" = true <;>
              simp [ca, cr, hm, dictMem_dictDel, hik, hbik]
        · simp only [Bool.not_eq_true] at hm
          by_cases ca : containsSub perms "allow id" = true <;>
            by_cases cr : containsSub perms "reject id" = true <;>
              simp [ca, cr, hm, hbik]

theorem dictMem_replay (ph : List String) (es : List Ev)
    (h : ∀ e ∈ es, wfEv e = true) (data : Registry) (i : Nat) :
    dictMem (replay ph data es) i = specMemberFrom i es (dictMem data i) := by
  induction es generalizing data with
  | nil => rfl
  | cons e rest ih =>
      have he : wfEv e = true := h e (List.mem_cons_self e rest)
      have hr : ∀ e2 ∈ rest, wfEv e2 = true := fun e2 h2 => h e2 (List.mem_cons_of_mem e h2)
      show dictMem (replay ph (applyEv ph data e) rest) i = _
      rw [ih hr, specMemberFrom, dictMem_applyEv ph data e i he]

theorem dictSet_ne_nil {α β : Type} [DecidableEq α]
    (d : List (α × β)) (k : α) (v : β) : dictSet d k v ≠ [] := by
  cases d with
  | nil => simp [dictSet]
  | cons hd tl =>
      obtain ⟨a, b⟩ := hd
      simp only [dictSet]
      split <;> simp

theorem dictGet_onPresence (ph : List String) (data : Registry) (i stc : Nat)
    (perms : String) (attrs : List (String × String)) (j : Nat) :
    dictGet (onPresence ph data i stc perms attrs) j =
      if stc = 1 then
        if containsSub perms "block id" = true then
          (if j = i then some (buildDevice ph i attrs) else dictGet data j)
        else dictGet data j
      else
        (if j = i then Option.none else dictGet data j) := by
  unfold onPresence
  by_cases h1 : stc = 1
  · by_cases hb : containsSub perms "block id" = true
    · simp [h1, hb, dictGet_dictSet]
    · simp [h1, hb]
  · by_cases hm : dictMem data i = true
    · simp [h1, hm, dictGet_dictDel]
    · have hnone : dictGet data i = Option.none := by
        simp only [dictMem, Option.isSome_iff_exists] at hm
        cases hg : dictGet data i with
        | none => rfl
        | some d => exact absurd ⟨d, hg⟩ hm
      simp only [h1, if_neg h1, hm, if_false, Bool.false_eq_true]
      split
      · next hj => rw [hj, hnone]
      · rfl

theorem onPolicy_cases (data : Registry) (i : Nat) (perms : String) :
    onPolicy data i perms = dictDel data i ∨ onPolicy data i perms = data := by
  unfold onPolicy
  by_cases ca : containsSub perms "allow id" = true <;>
    by_cases cr : containsSub perms "reject id" = true <;>
    by_cases hm : dictMem data i = true <;>
    simp [policyLoop, ca, cr, hm]

theorem dictMem_onPolicy_removed (data : Registry) (i : Nat) (perms : String)
    (hg : containsSub perms "allow id" = true ∨ containsSub perms "reject id" = true) :
    dictMem (onPolicy data i perms) i = false := by
  by_cases hm : dictMem data i = true
  · rcases hg with hg | hg
    · simp [onPolicy, policyLoop, hg, hm, dictMem_dictDel]
    · by_cases ca : containsSub perms "allow id" = true <;>
        simp [onPolicy, policyLoop, ca, hg, hm, dictMem_dictDel]
  · simp only [Bool.not_eq_true] at hm
    by_cases ca : containsSub perms "allow id" = true <;>
      by_cases cr : containsSub perms "reject id" = true <;>
      simp [onPolicy, policyLoop, ca, cr, hm, dictMem_dictDel]

theorem dictMem_buildLoop (attrs : List (String × String)) (ph : List String)
    (d : Device) (k : String) :
    dictMem (ph.foldl (buildStep attrs) d) k =
      (dictMem d k || (ph.contains k && (dictGet attrs (dashify k)).isSome)) := by
  induction ph generalizing d with
  | nil => simp
  | cons e rest ih =>
      rw [List.foldl_cons, ih]
      by_cases he : e = k
      · subst he
        cases hg : dictGet attrs (dashify e) with
        | none => simp [buildStep, hg]
        | some v => simp [buildStep, hg, dictMem_dictSet]
      · have hke : ¬ k = e := fun h => he h.symm
        cases hg : dictGet attrs (dashify e) with
        | none => simp [buildStep, hg, he, hke]
        | some v => simp [buildStep, hg, dictMem_dictSet, he, hke]

theorem dictGet_buildLoop_not_mem (attrs : List (String × String)) (ph : List String)
    (d : Device) (k : String) (hk : ¬ k ∈ ph) :
    dictGet (ph.foldl (buildStep attrs) d) k = dictGet d k := by
  induction ph generalizing d with
  | nil => rfl
  | cons e rest ih =>
      have hke : ¬ k = e := fun h => hk (by simp [h])
      have hkr : ¬ k ∈ rest := fun h => hk (List.mem_cons_of_mem e h)
      rw [List.foldl_cons, ih _ hkr]
      cases hg : dictGet attrs (dashify e) with
      | none => simp [buildStep, hg]
      | some v => simp [buildStep, hg, dictGet_dictSet, hke]

theorem dictGet_buildLoop_mem (attrs : List (String × String)) (ph : List String)
    (d : Device) (k : String) (v : String) (hnd : ph.Nodup) (hk : k ∈ ph)
    (hg : dictGet attrs (dashify k) = some v) :
    dictGet (ph.foldl (buildStep attrs) d) k =
      some (if v = "" then Val.null else Val.str v) := by
  induction ph generalizing d with
  | nil => cases hk
  | cons e rest ih =>
      rw [List.foldl_cons]
      rcases List.mem_cons.mp hk with he | hr
      · subst he
        have hkr : ¬ k ∈ rest := (List.nodup_cons.mp hnd).1
        rw [dictGet_buildLoop_not_mem attrs rest _ k hkr]
        simp [buildStep, hg, dictGet_dictSet]
      · exact ih _ (List.nodup_cons.mp hnd).2 hr

theorem setPolicy_zero_index (cfg : Config) (st : St) (a : Option Act) (ok : Bool) :
    setPolicy cfg st a (Idx.id 0) ok = ⟨st, [], [], Option.none⟩ := by
  cases a with
  | none => rfl
  | some act => simp [setPolicy]

theorem is_permanant_setPolicy (cfg : Config) (st : St) (a : Option Act)
    (idx : Idx) (ok : Bool) :
    (setPolicy cfg st a idx ok).st.is_permanant = st.is_permanant := by
  cases a with
  | none => rfl
  | some act =>
      cases idx with
      | sep => rfl
      | id n =>
          by_cases hn : n = 0
          · subst hn; rw [setPolicy_zero_index]
          · rcases hns : notifyStep cfg st.data act n with ⟨data1, notifs, err⟩
            cases err with
            | some e => simp [setPolicy, hn, hns]
            | none =>
                cases act with
                | block =>
                    cases hg : dictGet data1 n with
                    | none => simp [setPolicy, hn, hns, hg]
                    | some dev =>
                        by_cases hd : dev = [] <;> simp [setPolicy, hn, hns, hg, hd]
                | allow => simp [setPolicy, hn, hns]
                | reject => simp [setPolicy, hn, hns]

theorem calls_setPolicy_flag (cfg : Config) (st : St) (a : Option Act)
    (idx : Idx) (ok : Bool) :
    ((setPolicy cfg st a idx ok).calls.all fun c => c.2.2 == st.is_permanant) = true := by
  cases a with
  | none => rfl
  | some act =>
      cases idx with
      | sep => rfl
      | id n =>
          by_cases hn : n = 0
          · subst hn; rw [setPolicy_zero_index]; rfl
          · rcases hns : notifyStep cfg st.data act n with ⟨data1, notifs, err⟩
            cases err with
            | some e => simp [setPolicy, hn, hns]
            | none =>
                cases act with
                | block =>
                    cases hg : dictGet data1 n with
                    | none => simp [setPolicy, hn, hns, hg]
                    | some dev =>
                        by_cases hd : dev = [] <;> simp [setPolicy, hn, hns, hg, hd]
                | allow => simp [setPolicy, hn, hns]
                | reject => simp [setPolicy, hn, hns]

theorem is_permanant_onClick (cfg : Config) (st : St) (b : Nat) (idx : Idx) (ok : Bool) :
    (onClick cfg st b idx ok).st.is_permanant = st.is_permanant := by
  unfold onClick
  split_ifs <;> first | rw [is_permanant_setPolicy] | rfl

theorem is_permanant_runClicks (cfg : Config) (st : St)
    (clicks : List (Nat × Idx × Bool)) :
    (runClicks cfg st clicks).is_permanant = st.is_permanant := by
  induction clicks generalizing st with
  | nil => rfl
  | cons c rest ih =>
      obtain ⟨b, i, ok⟩ := c
      rw [runClicks, ih, is_permanant_onClick]

theorem notifyStep_disabled (cfg : Config) (data : Registry) (act : Act) (n : Nat)
    (h : cfg.format_notification = "") :
    notifyStep cfg data act n = ⟨data, [], Option.none⟩ := by
  simp [notifyStep, h]

theorem notifyStep_enabled_absent (cfg : Config) (data : Registry) (act : Act) (n : Nat)
    (h : ¬ cfg.format_notification = "") (hget : dictGet data n = Option.none) :
    notifyStep cfg data act n = ⟨data, [], some (PyErr.keyError n)⟩ := by
  simp [notifyStep, h, hget]

theorem notifyStep_enabled_present (cfg : Config) (data : Registry) (act : Act)
    (n : Nat) (dev : Device)
    (h : ¬ cfg.format_notification = "") (hget : dictGet data n = some dev) :
    notifyStep cfg data act n =
      ⟨dictSet data n (dictSet dev "action" (Val.str (actName act))),
        [dictSet dev "action" (Val.str (actName act))], Option.none⟩ := by
  simp [notifyStep, h, hget]

/-- Shared fixture: the placeholder set for a `format_device` of
`'{name}'` (the configuration default), as built by `post_config_hook`. -/
def phA : List String := ["name", "usbguard_id"]

/-- Shared fixture: the device dict stored for id 1 when the insertion
signal carries no attributes. -/
def devA : Device := [("usbguard_id", Val.nat 1), ("index", Val.nat 1)]

/-- Shared fixture: a state whose registry holds the single pending
device 1. -/
def stA : St := ⟨[(1, devA)], Option.none, false⟩

/-- Shared fixture: the device dict stored for id 0. -/
def dev0 : Device := [("usbguard_id", Val.nat 0), ("index", Val.nat 0)]

/-- Shared fixture: an event sequence for the replay claim — three
insertions, a removal of 1, a policy change granting allow for 2. -/
def c1Events : List Ev :=
  [Ev.presence 1 1 0 "block id" [("name", "A")],
   Ev.presence 2 1 0 "xx block id yy" [],
   Ev.presence 3 1 0 "block id" [("name", "C")],
   Ev.presence 1 3 1 "" [],
   Ev.policy 2 "allow id"]

/-- Claim C1: replaying any finite sequence of decoded insertion
(state 1 with a `'block id'` permission), removal (state 3), and
policy-change events through the listener handlers on an initially
empty registry leaves in the registry exactly the ids whose last event
concerning them is an insertion not yet followed by a removal or by a
policy change granting allow or reject for that id. -/
theorem C1_registry_replay (ph : List String) (es : List Ev)
    (h : ∀ e ∈ es, wfEv e = true) (i : Nat) :
    dictMem (replay ph [] es) i = specMemberFrom i es false := by
  have hbase : dictMem ([] : Registry) i = false := rfl
  rw [dictMem_replay ph es h [] i, hbase]

/-- Witness for C1 at a concrete event sequence: id 3 remains (its last
event is its insertion), id 2 does not (a granting policy change
followed). -/
theorem C1_registry_replay_witness :
    c1Events.all wfEv = true ∧
    dictMem (replay phA [] c1Events) 3 = specMemberFrom 3 c1Events false ∧
    dictMem (replay phA [] c1Events) 2 = specMemberFrom 2 c1Events false ∧
    dictMem (replay phA [] c1Events) 3 = true ∧
    dictMem (replay phA [] c1Events) 2 = false :=
  ⟨by decide,
   C1_registry_replay phA c1Events (by decide) 3,
   C1_registry_replay phA c1Events (by decide) 2,
   by decide, by decide⟩

/-- Claim C4 (amended): the presence handler stores a fresh device
entry exactly when the state code is 1 and the permission string
contains `'block id'`; it deletes the entry for the id whenever the
state code is anything other than 1 (not only 3); a state code of 1
without a `'block id'` permission leaves the registry unchanged. -/
theorem C4_presence_decoder (ph : List String) (data : Registry) (i stc : Nat)
    (perms : String) (attrs : List (String × String)) (j : Nat) :
    dictGet (onPresence ph data i stc perms attrs) j =
      if stc = 1 then
        if containsSub perms "block id" = true then
          (if j = i then some (buildDevice ph i attrs) else dictGet data j)
        else dictGet data j
      else
        (if j = i then Option.none else dictGet data j) :=
  dictGet_onPresence ph data i stc perms attrs j

/-- Counterexample for C4 as stated: a presence signal with state code
2 (neither inserted nor removed) for a pending id deletes the entry
instead of leaving the registry unchanged. -/
theorem C4_counterexample :
    onPresence phA [(1, devA)] 1 2 "" [] = [] ∧
    ([(1, devA)] : Registry) ≠ [] := by
  constructor
  · rfl
  · decide

/-- Claim C2 (amended): for every device id present in the registry
other than 0 (a 0 id never passes the dispatch guard, see C10),
dispatching `block` deletes the entry synchronously and attempts no
daemon call, while dispatching `allow` (`reject`) attempts exactly one
`applyDevicePolicy` call with target code 0 (2) and keeps the entry;
the entry then disappears when a policy-change event granting allow or
reject for that id is applied. -/
theorem C2_dispatch_block_allow_reject (cfg : Config) (st : St) (n : Nat)
    (dev : Device) (hn : n ≠ 0) (hget : dictGet st.data n = some dev)
    (hdev : dev ≠ []) :
    ((setPolicy cfg st (some Act.block) (Idx.id n) true).calls = [] ∧
      (setPolicy cfg st (some Act.block) (Idx.id n) true).err = Option.none ∧
      dictMem (setPolicy cfg st (some Act.block) (Idx.id n) true).st.data n = false) ∧
    (∀ ok, (setPolicy cfg st (some Act.allow) (Idx.id n) ok).calls
        = [(n, 0, st.is_permanant)] ∧
      dictMem (setPolicy cfg st (some Act.allow) (Idx.id n) ok).st.data n = true) ∧
    (∀ ok, (setPolicy cfg st (some Act.reject) (Idx.id n) ok).calls
        = [(n, 2, st.is_permanant)] ∧
      dictMem (setPolicy cfg st (some Act.reject) (Idx.id n) ok).st.data n = true) ∧
    (∀ data2 perms,
      (containsSub perms "allow id" = true ∨ containsSub perms "reject id" = true) →
      dictMem (onPolicy data2 n perms) n = false) := by
  by_cases hf : cfg.format_notification = ""
  · have h1b := notifyStep_disabled cfg st.data Act.block n hf
    have h1a := notifyStep_disabled cfg st.data Act.allow n hf
    have h1r := notifyStep_disabled cfg st.data Act.reject n hf
    refine ⟨?_, ?_, ?_, ?_⟩
    · simp [setPolicy, hn, h1b, hget, hdev, dictMem_dictDel]
    · intro ok
      simp [setPolicy, hn, h1a, targetCode, dictMem, hget]
    · intro ok
      simp [setPolicy, hn, h1r, targetCode, dictMem, hget]
    · exact fun data2 perms hg => dictMem_onPolicy_removed data2 n perms hg
  · have h1b := notifyStep_enabled_present cfg st.data Act.block n dev hf hget
    have h1a := notifyStep_enabled_present cfg st.data Act.allow n dev hf hget
    have h1r := notifyStep_enabled_present cfg st.data Act.reject n dev hf hget
    refine ⟨?_, ?_, ?_, ?_⟩
    · simp [setPolicy, hn, h1b, dictGet_dictSet, dictSet_ne_nil, dictMem_dictDel]
    · intro ok
      simp [setPolicy, hn, h1a, targetCode, dictMem_dictSet]
    · intro ok
      simp [setPolicy, hn, h1r, targetCode, dictMem_dictSet]
    · exact fun data2 perms hg => dictMem_onPolicy_removed data2 n perms hg

/-- Witness for C2 at the concrete pending device 1: block removes it
with no call; allow keeps it and calls the daemon with target 0. -/
theorem C2_dispatch_witness :
    dictMem (setPolicy defaultCfg stA (some Act.block) (Idx.id 1) true).st.data 1 = false ∧
    (setPolicy defaultCfg stA (some Act.block) (Idx.id 1) true).calls = [] ∧
    (setPolicy defaultCfg stA (some Act.allow) (Idx.id 1) true).calls = [(1, 0, false)] ∧
    dictMem (setPolicy defaultCfg stA (some Act.allow) (Idx.id 1) true).st.data 1 = true :=
  ⟨(C2_dispatch_block_allow_reject defaultCfg stA 1 devA (by decide) (by decide)
      (by decide)).1.2.2,
   (C2_dispatch_block_allow_reject defaultCfg stA 1 devA (by decide) (by decide)
      (by decide)).1.1,
   ((C2_dispatch_block_allow_reject defaultCfg stA 1 devA (by decide) (by decide)
      (by decide)).2.1 true).1,
   ((C2_dispatch_block_allow_reject defaultCfg stA 1 devA (by decide) (by decide)
      (by decide)).2.1 true).2⟩

/-- Counterexample for C2 as stated: the id 0 can be present in the
registry, yet `Dispatch('block', 0)` is a no-op — the guard
`if action and index` treats the integer 0 as unset, so the entry is
not removed. -/
theorem C2_counterexample :
    dictMem ([(0, dev0)] : Registry) 0 = true ∧
    setPolicy defaultCfg ⟨[(0, dev0)], Option.none, false⟩ (some Act.block)
        (Idx.id 0) true
      = ⟨⟨[(0, dev0)], Option.none, false⟩, [], [], Option.none⟩ := by
  constructor
  · decide
  · exact setPolicy_zero_index defaultCfg ⟨[(0, dev0)], Option.none, false⟩
      (some Act.block) true

/-- Claim C3 (amended): dispatching an action for an id absent from the
registry is not silently ignored.  With notification formatting
configured (the default) the lookup `self.data[index]` raises a
`KeyError` for every action; with notifications disabled, `block` still
raises a `KeyError` while `allow`/`reject` issue a daemon call for the
unknown id.  Only an unset action, the separator sentinel, or the falsy
index 0 are silently ignored. -/
theorem C3_absent_id_dispatch (cfg : Config) (st : St) (act : Act) (n : Nat)
    (ok : Bool) (hn : n ≠ 0) (habs : dictGet st.data n = Option.none) :
    (cfg.format_notification ≠ "" →
      setPolicy cfg st (some act) (Idx.id n) ok
        = ⟨st, [], [], some (PyErr.keyError n)⟩) ∧
    (cfg.format_notification = "" → act = Act.block →
      setPolicy cfg st (some act) (Idx.id n) ok
        = ⟨st, [], [], some (PyErr.keyError n)⟩) ∧
    (cfg.format_notification = "" → act ≠ Act.block →
      (setPolicy cfg st (some act) (Idx.id n) ok).calls
          = [(n, targetCode act, st.is_permanant)] ∧
      (setPolicy cfg st (some act) (Idx.id n) ok).st.data = st.data) ∧
    (∀ a idx, setPolicy cfg st Option.none idx ok = ⟨st, [], [], Option.none⟩
      ∧ setPolicy cfg st a Idx.sep ok = ⟨st, [], [], Option.none⟩
      ∧ setPolicy cfg st a (Idx.id 0) ok = ⟨st, [], [], Option.none⟩) := by
  refine ⟨?_, ?_, ?_, ?_⟩
  · intro hf
    have h1 := notifyStep_enabled_absent cfg st.data act n hf habs
    simp [setPolicy, hn, h1]
  · intro hf hb
    subst hb
    have h1 := notifyStep_disabled cfg st.data Act.block n hf
    simp [setPolicy, hn, h1, habs]
  · intro hf hb
    have h1 := notifyStep_disabled cfg st.data act n hf
    cases act with
    | allow => simp [setPolicy, hn, h1, targetCode]
    | block => exact absurd rfl hb
    | reject => simp [setPolicy, hn, h1, targetCode]
  · intro a idx
    refine ⟨rfl, ?_, setPolicy_zero_index cfg st a ok⟩
    cases a with
    | none => rfl
    | some a2 => rfl

/-- Witness for C3 at the default configuration and an empty registry:
an allow click for the stale id 1 raises `KeyError(1)`. -/
theorem C3_absent_id_witness :
    defaultCfg.format_notification ≠ "" ∧
    setPolicy defaultCfg initSt (some Act.allow) (Idx.id 1) true
      = ⟨initSt, [], [], some (PyErr.keyError 1)⟩ :=
  ⟨by decide,
   (C3_absent_id_dispatch defaultCfg initSt Act.allow 1 true (by decide) (by decide)).1
     (by decide)⟩

/-- Counterexample for C3 as stated: with the default configuration a
stale allow dispatch for an id not in the registry raises a `KeyError`
instead of being silently ignored. -/
theorem C3_counterexample :
    (setPolicy defaultCfg initSt (some Act.allow) (Idx.id 1) true).err
      = some (PyErr.keyError 1) := by decide

/-- Claim C5 (amended): when the daemon's `applyDevicePolicy` call for
an allow/reject dispatch on a pending device fails, the exception
propagates to the caller uncaught (the source wraps the call in no
`try`); the device is still in the registry afterwards, so the user
can retry — though with notifications configured its stored record has
gained the `'action'` key, so the registry is not left literally
unchanged. -/
theorem C5_daemon_failure (cfg : Config) (st : St) (act : Act) (n : Nat)
    (dev : Device) (hact : act ≠ Act.block) (hn : n ≠ 0)
    (hget : dictGet st.data n = some dev) :
    (setPolicy cfg st (some act) (Idx.id n) false).err = some PyErr.daemonError ∧
    dictMem (setPolicy cfg st (some act) (Idx.id n) false).st.data n = true ∧
    (cfg.format_notification = "" →
      (setPolicy cfg st (some act) (Idx.id n) false).st.data = st.data) := by
  by_cases hf : cfg.format_notification = ""
  · have h1 := notifyStep_disabled cfg st.data act n hf
    cases act with
    | allow => refine ⟨?_, ?_, fun _ => ?_⟩ <;> simp [setPolicy, hn, h1, dictMem, hget]
    | block => exact absurd rfl hact
    | reject => refine ⟨?_, ?_, fun _ => ?_⟩ <;> simp [setPolicy, hn, h1, dictMem, hget]
  · have h1 := notifyStep_enabled_present cfg st.data act n dev hf hget
    cases act with
    | allow =>
        refine ⟨?_, ?_, fun hc => absurd hc hf⟩ <;>
          simp [setPolicy, hn, h1, dictMem_dictSet]
    | block => exact absurd rfl hact
    | reject =>
        refine ⟨?_, ?_, fun hc => absurd hc hf⟩ <;>
          simp [setPolicy, hn, h1, dictMem_dictSet]

/-- Witness for C5 at the concrete pending device 1 with a failing
daemon: the error propagates and the device is still pending. -/
theorem C5_daemon_failure_witness :
    (setPolicy defaultCfg stA (some Act.allow) (Idx.id 1) false).err
        = some PyErr.daemonError ∧
    dictMem (setPolicy defaultCfg stA (some Act.allow) (Idx.id 1) false).st.data 1
        = true :=
  ⟨(C5_daemon_failure defaultCfg stA Act.allow 1 devA (by decide) (by decide)
      (by decide)).1,
   (C5_daemon_failure defaultCfg stA Act.allow 1 devA (by decide) (by decide)
      (by decide)).2.1⟩

/-- Counterexample for C5 as stated: the daemon failure is not caught
(the dispatch ends in a propagated exception), and the registry is not
left unchanged either — the notification block has already added the
`'action'` key to the stored record. -/
theorem C5_counterexample :
    (setPolicy defaultCfg stA (some Act.allow) (Idx.id 1) false).err
        = some PyErr.daemonError ∧
    (setPolicy defaultCfg stA (some Act.allow) (Idx.id 1) false).st.data
        ≠ stA.data := by decide

/-- Claim C6 (amended): the signal handlers never mutate an existing
entry in place — a presence event leaves an entry untouched, deletes
it, or wholesale-replaces it with a freshly built device dict, and a
policy event at most deletes it; the dispatcher, however, when
notification formatting is configured, mutates the targeted entry in
place by setting its `'action'` key (the aliasing at lines 186-187);
entries for other ids are never touched by a dispatch. -/
theorem C6_entry_mutation (ph : List String) :
    (∀ data i stc perms attrs j, j ≠ i →
        dictGet (onPresence ph data i stc perms attrs) j = dictGet data j) ∧
    (∀ data i stc perms attrs,
        dictGet (onPresence ph data i stc perms attrs) i = Option.none ∨
        dictGet (onPresence ph data i stc perms attrs) i = dictGet data i ∨
        dictGet (onPresence ph data i stc perms attrs) i
          = some (buildDevice ph i attrs)) ∧
    (∀ data i perms j,
        dictGet (onPolicy data i perms) j = Option.none ∨
        dictGet (onPolicy data i perms) j = dictGet data j) ∧
    (∀ cfg st act n ok dev, dictGet st.data n = some dev →
        dictGet (setPolicy cfg st (some act) (Idx.id n) ok).st.data n = Option.none ∨
        dictGet (setPolicy cfg st (some act) (Idx.id n) ok).st.data n = some dev ∨
        dictGet (setPolicy cfg st (some act) (Idx.id n) ok).st.data n
          = some (dictSet dev "action" (Val.str (actName act)))) ∧
    (∀ cfg st act n ok j, j ≠ n →
        dictGet (setPolicy cfg st (some act) (Idx.id n) ok).st.data j
          = dictGet st.data j) := by
  refine ⟨?_, ?_, ?_, ?_, ?_⟩
  · intro data i stc perms attrs j hj
    rw [dictGet_onPresence]
    split_ifs <;> rfl
  · intro data i stc perms attrs
    rw [dictGet_onPresence]
    split_ifs <;> simp_all
  · intro data i perms j
    rcases onPolicy_cases data i perms with h | h
    · rw [h, dictGet_dictDel]
      split_ifs <;> simp
    · exact Or.inr (by rw [h])
  · intro cfg st act n ok dev hget
    by_cases hn : n = 0
    · subst hn
      rw [setPolicy_zero_index]
      exact Or.inr (Or.inl hget)
    · by_cases hf : cfg.format_notification = ""
      · have h1 := notifyStep_disabled cfg st.data act n hf
        cases act with
        | allow => exact Or.inr (Or.inl (by simp [setPolicy, hn, h1, hget]))
        | reject => exact Or.inr (Or.inl (by simp [setPolicy, hn, h1, hget]))
        | block =>
            by_cases hd : dev = []
            · exact Or.inr (Or.inl (by simp [setPolicy, hn, h1, hget, hd]))
            · exact Or.inl (by simp [setPolicy, hn, h1, hget, hd, dictGet_dictDel])
      · have h1 := notifyStep_enabled_present cfg st.data act n dev hf hget
        cases act with
        | allow =>
            exact Or.inr (Or.inr (by simp [setPolicy, hn, h1, dictGet_dictSet]))
        | reject =>
            exact Or.inr (Or.inr (by simp [setPolicy, hn, h1, dictGet_dictSet]))
        | block =>
            exact Or.inl (by
              simp [setPolicy, hn, h1, dictGet_dictSet, dictSet_ne_nil,
                dictGet_dictDel])
  · intro cfg st act n ok j hj
    by_cases hn : n = 0
    · subst hn; rw [setPolicy_zero_index]
    · by_cases hf : cfg.format_notification = ""
      · have h1 := notifyStep_disabled cfg st.data act n hf
        cases act with
        | allow => simp [setPolicy, hn, h1]
        | reject => simp [setPolicy, hn, h1]
        | block =>
            cases hg : dictGet st.data n with
            | none => simp [setPolicy, hn, h1, hg]
            | some dev =>
                by_cases hd : dev = []
                · simp [setPolicy, hn, h1, hg, hd]
                · simp [setPolicy, hn, h1, hg, hd, dictGet_dictDel, hj]
      · cases hg : dictGet st.data n with
        | none =>
            have h1 := notifyStep_enabled_absent cfg st.data act n hf hg
            simp [setPolicy, hn, h1]
        | some dev =>
            have h1 := notifyStep_enabled_present cfg st.data act n dev hf hg
            cases act with
            | allow => simp [setPolicy, hn, h1, dictGet_dictSet, hj]
            | reject => simp [setPolicy, hn, h1, dictGet_dictSet, hj]
            | block =>
                simp [setPolicy, hn, h1, dictGet_dictSet, dictSet_ne_nil,
                  dictGet_dictDel, hj]

/-- Witness for C6 at concrete inputs: a removal for id 1 leaves the
entry of id 2 untouched, and an allow dispatch on device 1 lands in one
of the three permitted outcomes. -/
theorem C6_entry_mutation_witness :
    (2 : Nat) ≠ 1 ∧
    dictGet (onPresence phA [(1, devA)] 1 3 "" []) 2
        = dictGet ([(1, devA)] : Registry) 2 ∧
    (dictGet (setPolicy defaultCfg stA (some Act.allow) (Idx.id 1) true).st.data 1
        = Option.none ∨
      dictGet (setPolicy defaultCfg stA (some Act.allow) (Idx.id 1) true).st.data 1
        = some devA ∨
      dictGet (setPolicy defaultCfg stA (some Act.allow) (Idx.id 1) true).st.data 1
        = some (dictSet devA "action" (Val.str (actName Act.allow)))) :=
  ⟨by decide,
   (C6_entry_mutation phA).1 [(1, devA)] 1 3 "" [] 2 (by decide),
   (C6_entry_mutation phA).2.2.2.1 defaultCfg stA Act.allow 1 true devA (by decide)⟩

/-- Counterexample for C6 as stated: an allow dispatch with the default
notification format mutates the stored entry for id 1 in place — the
record afterwards differs from the one created at insertion, having
gained the `'action'` key, with neither a wholesale replacement by a
fresh insertion nor a removal having occurred. -/
theorem C6_counterexample :
    dictGet (setPolicy defaultCfg stA (some Act.allow) (Idx.id 1) true).st.data 1
        ≠ some devA ∧
    dictGet (setPolicy defaultCfg stA (some Act.allow) (Idx.id 1) true).st.data 1
        = some (devA ++ [("action", Val.str "allow")]) := by decide

/-- Claim C8: with no stored connection error, the render output always
carries `urgent = true` — for every state, including an empty registry,
in which case the device-list segment is empty (the `full_text` branch
before any event, the empty composite afterwards) and no error is
raised. -/
theorem C8_render_urgent (st : St)
    (hco : st.new_data = Option.none ∨ st.new_data = some (manipulateDevices st.data)) :
    usbguard Option.none st = Except.ok (render st) ∧
    (render st).urgent = true ∧
    (st.data = [] → (render st).deviceSegs = []) := by
  refine ⟨rfl, ?_, ?_⟩
  · unfold render
    cases h : st.new_data <;> simp
  · intro hd
    rcases hco with h | h
    · simp [render, h, Resp.deviceSegs]
    · simp [render, h, hd, manipulateDevices, Resp.deviceSegs]

/-- Witness for C8 at the initial state (empty registry, `new_data`
not yet populated): render succeeds, urgent is true, the device
segment is empty. -/
theorem C8_render_urgent_witness :
    usbguard Option.none initSt = Except.ok (render initSt) ∧
    (render initSt).urgent = true ∧
    (render initSt).deviceSegs = [] :=
  ⟨(C8_render_urgent initSt (Or.inl rfl)).1,
   (C8_render_urgent initSt (Or.inl rfl)).2.1,
   (C8_render_urgent initSt (Or.inl rfl)).2.2 rfl⟩

/-- Claim C9 (amended): the permanent flag starts false and every
`applyDevicePolicy` call carries the current flag; the code contains a
toggle (`_toggle_permanant`) that flips the flag, but no user-interface
event ever invokes it — `on_click` dispatches only the three actions —
so across every sequence of click events the flag stays false and every
daemon call is issued with `permanent = false`. -/
theorem C9_permanent_flag :
    initSt.is_permanant = false ∧
    (∀ st, (togglePermanant st).is_permanant = !st.is_permanant) ∧
    (∀ cfg st clicks, (runClicks cfg st clicks).is_permanant = st.is_permanant) ∧
    (∀ cfg st a idx ok,
      ((setPolicy cfg st a idx ok).calls.all fun c => c.2.2 == st.is_permanant)
        = true) :=
  ⟨rfl, fun _ => rfl, fun cfg st clicks => is_permanant_runClicks cfg st clicks,
   fun cfg st a idx ok => calls_setPolicy_flag cfg st a idx ok⟩

/-- Counterexample for C9 as stated: no sequence of user-interface
click events, from any post-configuration state, ever makes the
permanent flag true — the toggle is dead code, unreachable from the
click interface. -/
theorem C9_counterexample :
    ¬ ∃ (cfg : Config) (data : Registry) (nd : Option (List Seg))
        (clicks : List (Nat × Idx × Bool)),
      (runClicks cfg ⟨data, nd, false⟩ clicks).is_permanant = true := by
  rintro ⟨cfg, data, nd, clicks, h⟩
  rw [is_permanant_runClicks] at h
  exact Bool.false_ne_true h

/-- Claim C10: a click whose index is the integer 0 does nothing at
all — the guard `if action and index` treats 0 as falsy, exactly like
an unset index — so a pending device with daemon-assigned id 0 can
never be acted on through the click interface: no daemon call, no
registry change, no notification, no error, for any button and any
action. -/
theorem C10_zero_index (cfg : Config) (st : St) (b : Nat) (ok : Bool) :
    onClick cfg st b (Idx.id 0) ok = ⟨st, [], [], Option.none⟩ ∧
    (∀ a, setPolicy cfg st a (Idx.id 0) ok = ⟨st, [], [], Option.none⟩) := by
  constructor
  · unfold onClick
    split_ifs <;> first | rw [setPolicy_zero_index] | rfl
  · exact fun a => setPolicy_zero_index cfg st a ok

/-- Claim C7 (amended): the decoded entry always contains
`usbguard_id` and `index`; a declared placeholder key is present in the
entry exactly when its dash-translated name appears in the signal's
attribute map — with its value when non-empty, and an explicit `None`
when the supplied value is empty; a declared attribute that the daemon
did not supply at all is omitted from the entry, not represented. -/
theorem C7_insertion_attributes :
    (∀ ph i attrs k,
      dictMem (buildDevice ph i attrs) k = true ↔
        (k = "usbguard_id" ∨ k = "index" ∨
          (k ∈ ph ∧ (dictGet attrs (dashify k)).isSome = true))) ∧
    (∀ ph i attrs k v, ph.Nodup → k ∈ ph →
        dictGet attrs (dashify k) = some v →
        dictGet (buildDevice ph i attrs) k =
          some (if v = "" then Val.null else Val.str v)) := by
  constructor
  · intro ph i attrs k
    rw [buildDevice, dictMem_buildLoop]
    by_cases h1 : k = "usbguard_id"
    · subst h1; simp [dictMem, dictGet]
    · by_cases h2 : k = "index"
      · subst h2; simp [dictMem, dictGet]
      · have h1x : ¬ "usbguard_id" = k := fun h => h1 h.symm
        have h2x : ¬ "index" = k := fun h => h2 h.symm
        simp [dictMem, dictGet, h1, h2, h1x, h2x]
  · intro ph i attrs k v hnd hk hg
    rw [buildDevice]
    exact dictGet_buildLoop_mem attrs ph _ k v hnd hk hg

/-- Witness for C7 at a concrete insertion: `name` is declared, the
daemon supplies it as the empty string, and the entry represents it as
an explicit `None`. -/
theorem C7_insertion_attributes_witness :
    phA.Nodup ∧ "name" ∈ phA ∧
    dictGet ([("name", "")] : List (String × String)) (dashify "name") = some "" ∧
    dictGet (buildDevice phA 7 [("name", "")]) "name" = some Val.null :=
  ⟨by decide, by decide, by decide,
   by
     have h := (C7_insertion_attributes).2 phA 7 [("name", "")] "name" ""
       (by decide) (by decide) (by decide)
     simpa using h⟩

/-- Counterexample for C7 as stated: `name` is a declared placeholder,
the daemon supplies no attributes, and the entry omits the key
entirely instead of representing it as an explicit absent/null
value. -/
theorem C7_counterexample :
    "name" ∈ phA ∧
    dictMem (buildDevice phA 7 []) "name" = false := by decide
